import Mathlib

/-!
Verification of the NookTrip itinerary route-map enrichment pipeline.

This file gives a shallow embedding of the map-generation core of the
repository (the functions `direction_path`, `encoding_points`,
`encoding_path`, `static_map_image`, `generate_route_map`,
`add_paths_to_itinerary`, `validate_input` and `lambda_handler` of
`NOOK-FUNCTIONS/itineraries/lambda_function.py`), and proves properties of
that embedding.

Modelling conventions:
 -  Network I/O is modelled by oracles: a directions call for segment `i`
    consults `dn i`; the i-th attempt of a single call consults `net i`
    (the source performs exactly one attempt); the image fetch consults
    `im url`.  The sequence of issued requests is returned as an explicit
    trace (`List Request`).
 -  Python exceptions are `Except.error`, a `None` return is `Except.ok none`.
 -  Python floats are represented by their printed string form, since the
    source only ever formats them into URLs (a coordinate is a pair of
    strings `(longitude, latitude)`).
 -  Logged warnings are collected in explicit lists.
-/

namespace NookTrip

/-- A coordinate as the pair of printed numbers (longitude, latitude),
matching the `[lon, lat]` lists built in `generate_route_map`. -/
abbrev Coord : Type := String × String

/-- Default coordinate used for the (never hit in-range) `List.getD` default. -/
def dCoord : Coord := ("", "")

/-- Uppercase hexadecimal digits, as used by `urllib.parse.quote`. -/
def hexDigits : List Char :=
  ['0', '1', '2', '3', '4', '5', '6', '7', '8', '9', 'A', 'B', 'C', 'D', 'E', 'F']

/-- UTF-8 encoding of one character as a list of byte values,
used to model the byte-wise percent escaping of `urllib.parse.quote`. -/
def utf8Bytes (c : Char) : List Nat :=
  let n := c.toNat
  if n < 128 then [n]
  else if n < 2048 then [192 + n / 64, 128 + n % 64]
  else if n < 65536 then [224 + n / 4096, 128 + n / 64 % 64, 128 + n % 64]
  else [240 + n / 262144, 128 + n / 4096 % 64, 128 + n / 64 % 64, 128 + n % 64]

/-- Percent-escape of one byte, e.g. 43 becomes "%2B". -/
def percentByte (b : Nat) : String :=
  String.mk ['%', hexDigits.getD (b / 16 % 16) '0', hexDigits.getD (b % 16) '0']

/-- Characters `urllib.parse.quote` leaves unescaped with its default
`safe="/"`: unreserved characters plus the slash. -/
def isSafeChar (c : Char) : Bool :=
  c.isAlphanum || c = '_' || c = '.' || c = '-' || c = '~' || c = '/'

/-- Escape of one character under `urllib.parse.quote`. -/
def quoteChar (c : Char) : String :=
  if isSafeChar c then String.singleton c
  else String.join ((utf8Bytes c).map percentByte)

/-- Model of `urllib.parse.quote` with its default `safe="/"`. -/
def quote (s : String) : String :=
  String.join (s.data.map quoteChar)

/-- The standard base64 alphabet. -/
def base64Chars : List Char :=
  "ABCDEFGHIJKLMNOPQRSTUVWXYZabcdefghijklmnopqrstuvwxyz0123456789+/".data

/-- Digit of the base64 alphabet. -/
def b64c (n : Nat) : Char := base64Chars.getD n 'A'

/-- Model of `base64.b64encode(...).decode("utf-8")` on a byte list. -/
def base64Encode : List Nat → String
  | [] => ""
  | [a] => String.mk [b64c (a / 4), b64c (a % 4 * 16), '=', '=']
  | [a, b] => String.mk [b64c (a / 4), b64c (a % 4 * 16 + b / 16), b64c (b % 16 * 4), '=']
  | a :: b :: c :: rest =>
    String.mk [b64c (a / 4), b64c (a % 4 * 16 + b / 16), b64c (b % 16 * 4 + c / 64), b64c (c % 64)]
      ++ base64Encode rest

/-- Model of Python `str.lower()` (ASCII case folding suffices for the
transport-mode strings the code compares against). -/
def lowerStr (s : String) : String := String.mk (s.data.map Char.toLower)

/-- A directions-service response: its HTTP status and the decoded list of
`routes[i]["geometry"]` strings; `none` models a JSON body with no usable
`routes` key (for instance an error body). -/
structure DirResponse where
  status : Nat
  routes : Option (List String)
deriving DecidableEq, Repr

/-- An image-service response: HTTP status and body bytes. -/
structure ImgResponse where
  status : Nat
  content : List Nat
deriving DecidableEq, Repr

/-- The expression `response.json()["routes"][0]["geometry"]` from
`direction_path` (lambda_function.py line 28): a missing `routes` key
raises `KeyError`, an empty route list raises `IndexError`; note that the
status code is never inspected. -/
def extractGeometry (r : DirResponse) : Except String String :=
  match r.routes with
  | none => Except.error "KeyError: routes"
  | some [] => Except.error "IndexError: routes is empty"
  | some (g :: _) => Except.ok g

/-- The directions URL built by `direction_path`
(lambda_function.py lines 21-24). -/
def directionsUrl (start_coordinates end_coordinates : Coord) (mode access_token : String) :
    String :=
  let s0 := start_coordinates.1
  let s1 := start_coordinates.2
  let e0 := end_coordinates.1
  let e1 := end_coordinates.2
  "https://api.mapbox.com/directions/v5/mapbox/" ++ mode ++ "/" ++ s0 ++ "," ++ s1 ++ ";"
    ++ e0 ++ "," ++ e1
    ++ "?alternatives=false&continue_straight=true&geometries=polyline&overview=full&steps=false&access_token="
    ++ access_token

/-- Embedding of `direction_path` (lambda_function.py lines 20-28).  The
oracle `net k` is the response the network would give to the k-th GET
attempt of this call.  The source performs exactly one `requests.get`
(consulting only `net 0`) and returns the first route geometry of whatever
body came back; the second component is the number of attempts made. -/
def direction_path (start_coordinates end_coordinates : Coord) (mode access_token : String)
    (net : Nat → DirResponse) : Except String String × Nat :=
  let _directions_url := directionsUrl start_coordinates end_coordinates mode access_token
  let response := net 0
  (extractGeometry response, 1)

/-- One marker token of `encoding_points` (lambda_function.py lines 33-39):
the branch taken for position `i` in a list of `n` coordinates. -/
def pointToken (n i : Nat) (c : Coord) : String :=
  let lon := c.1
  let lat := c.2
  if i = 0 then "pin-l-" ++ toString (i + 1) ++ "+26a269(" ++ lon ++ "," ++ lat ++ "),"
  else if i = n - 1 then "pin-l-" ++ toString (i + 1) ++ "+ff0000(" ++ lon ++ "," ++ lat ++ ")"
  else "pin-s-" ++ toString (i + 1) ++ "+555555(" ++ lon ++ "," ++ lat ++ "),"

/-- The list of marker tokens accumulated by the loop of `encoding_points`. -/
def pointTokens (coordinates : List Coord) : List String :=
  (List.range coordinates.length).map
    (fun i => pointToken coordinates.length i (coordinates.getD i dCoord))

/-- Embedding of `encoding_points` (lambda_function.py lines 30-40): the
loop accumulates the marker tokens with string +=, which is the join of
the per-index tokens. -/
def encoding_points (coordinates : List Coord) : String :=
  String.join (pointTokens coordinates)

/-- The start-style marker: a large pin labelled 1 with the fixed start
color 26a269, with its trailing separator comma. -/
def startMarker (c : Coord) : String :=
  "pin-l-" ++ toString 1 ++ "+26a269(" ++ c.1 ++ "," ++ c.2 ++ "),"

/-- The end-style marker: a large pin labelled with the (1-based) length of
the coordinate list, with the fixed end color ff0000 and no trailing comma. -/
def endMarker (n : Nat) (c : Coord) : String :=
  "pin-l-" ++ toString n ++ "+ff0000(" ++ c.1 ++ "," ++ c.2 ++ ")"

/-- A waypoint marker: a small pin labelled with the coordinate's 1-based
position, with the fixed waypoint color 555555. -/
def wayMarker (pos : Nat) (c : Coord) : String :=
  "pin-s-" ++ toString pos ++ "+555555(" ++ c.1 ++ "," ++ c.2 ++ "),"

/-- Color constant of `encoding_path` (lambda_function.py line 43). -/
def DRIVING_COLOR : String := "2bff00"

/-- Color constant of `encoding_path` (lambda_function.py line 44). -/
def WALKING_COLOR : String := "0000ff"

/-- Color constant of `encoding_path` (lambda_function.py line 45). -/
def CYCLING_COLOR : String := "ff0000"

/-- Stroke-width constant of `encoding_path` (lambda_function.py line 46). -/
def STROKE_WIDTH : Nat := 3

/-- One path token of `encoding_path` (lambda_function.py lines 51-58),
including its trailing comma.  Note the final branch: a mode outside the
table yields a width-only token with no color component at all. -/
def pathToken (geometry mode : String) : String :=
  if mode = "driving" then
    "path-" ++ toString STROKE_WIDTH ++ "+" ++ DRIVING_COLOR ++ "(" ++ geometry ++ "),"
  else if mode = "walking" then
    "path-" ++ toString STROKE_WIDTH ++ "+" ++ WALKING_COLOR ++ "(" ++ geometry ++ "),"
  else if mode = "cycling" then
    "path-" ++ toString STROKE_WIDTH ++ "+" ++ CYCLING_COLOR ++ "(" ++ geometry ++ "),"
  else
    "path-" ++ toString STROKE_WIDTH ++ "(" ++ geometry ++ "),"

/-- The list of path tokens accumulated by the loop of `encoding_path`. -/
def pathTokens (paths_coordinates modes : List String) : List String :=
  (List.range paths_coordinates.length).map
    (fun i => pathToken (paths_coordinates.getD i "") (modes.getD i ""))

/-- Embedding of `encoding_path` (lambda_function.py lines 42-60): joins
the tokens and strips the final character (the trailing comma), mirroring
the `[:-1]` slice; on no tokens this yields the empty string. -/
def encoding_path (paths_coordinates modes : List String) : String :=
  String.mk (String.join (pathTokens paths_coordinates modes)).data.dropLast

/-- One network request issued by the compositor, recorded with the
arguments that determine it. -/
inductive Request where
  | directions (start_coordinates end_coordinates : Coord) (mode : String)
  | image (url : String)
deriving DecidableEq, Repr

/-- The modes of the directions requests of a trace, in issue order. -/
def dirModes : List Request → List String
  | [] => []
  | Request.directions _ _ m :: rest => m :: dirModes rest
  | Request.image _ :: rest => dirModes rest

/-- The segment-fetch loop of `static_map_image` (lambda_function.py lines
75-78) over a list of segment indices: each index issues one
`direction_path` call (whose single attempt consults `dn i`); a raised
exception aborts the loop. -/
def runSegments (coordinates : List Coord) (modes : List String) (access_token : String)
    (dn : Nat → DirResponse) : List Nat → List Request × Except String (List String)
  | [] => ([], Except.ok [])
  | i :: rest =>
    let s := coordinates.getD i dCoord
    let e := coordinates.getD (i + 1) dCoord
    let mo := modes.getD i ""
    match (direction_path s e mo access_token (fun _ => dn i)).1 with
    | Except.error err => ([Request.directions s e mo], Except.error err)
    | Except.ok g =>
      let tail := runSegments coordinates modes access_token dn rest
      (Request.directions s e mo :: tail.1,
       match tail.2 with
       | Except.error err => Except.error err
       | Except.ok gs => Except.ok (g :: gs))

/-- Embedding of `static_map_image` (lambda_function.py lines 62-92):
fetches one geometry per consecutive coordinate pair (serially, aborting
on the first exception), assembles the composite static-map URL, performs
the single image fetch, and returns the base64 bytes on status 200 and
`none` on any other status.  The first component is the trace of issued
requests. -/
def static_map_image (coordinates : List Coord) (modes : List String) (size access_token : String)
    (dn : Nat → DirResponse) (im : String → ImgResponse) :
    List Request × Except String (Option String) :=
  let seg := runSegments coordinates modes access_token dn (List.range (coordinates.length - 1))
  match seg.2 with
  | Except.error e => (seg.1, Except.error e)
  | Except.ok paths_coordinates =>
    let encoded_points := encoding_points coordinates
    let encoded_path := encoding_path paths_coordinates modes
    let encoded_path_url := quote encoded_path
    let image_url := "https://api.mapbox.com/styles/v1/mapbox/outdoors-v12/static/"
      ++ encoded_path_url ++ "," ++ encoded_points ++ "/auto/" ++ size
      ++ "@2x?access_token=" ++ access_token
    let response := im image_url
    (seg.1 ++ [Request.image image_url],
     if response.status = 200 then Except.ok (some (base64Encode response.content))
     else Except.ok none)

/-- One stop of an itinerary (the pydantic `Stop` model, plus the
`path_to_next` key that `add_paths_to_itinerary` writes into the dict). -/
structure Stop where
  location_title : String
  location_address : String
  duration : String
  cost : Int
  currency : String
  google_map_coordinates : String
  path_to_next : Option String := none
deriving DecidableEq, Repr

/-- Default stop for `List.getD`. -/
def dStop : Stop := ⟨"", "", "", 0, "", "", none⟩

/-- An itinerary (the pydantic `Itinerary` model; `end` is a Lean keyword
and is rendered `end_`; `map_image` is the key the handler may attach). -/
structure Itinerary where
  stops : List Stop
  total_duration : String
  total_cost : Int
  location_currency : String
  summary : String
  package_name : String
  start : String
  end_ : String
  total_distance : String
  transport_mode : String
  map_image : Option String := none
deriving DecidableEq, Repr

/-- Default itinerary for `List.getD`. -/
def dItin : Itinerary := ⟨[], "", 0, "", "", "", "", "", "", "", none⟩

/-- Splitting a character list at commas, accumulating the current field in
reverse: the model of Python `s.split(",")`. -/
def splitCommaAux : List Char → List Char → List String
  | [], acc => [String.mk acc.reverse]
  | c :: rest, acc =>
    if c = ',' then String.mk acc.reverse :: splitCommaAux rest []
    else splitCommaAux rest (c :: acc)

/-- The statement `lat, lon = map(float, stop["google_map_coordinates"].split(","))`
followed by `coordinates.append([lon, lat])` (lambda_function.py lines
263-265): anything other than exactly two comma-separated fields raises;
the numbers themselves are carried as their printed strings. -/
def parseCoordinates (s : String) : Except String Coord :=
  match splitCommaAux s.data [] with
  | [lat, lon] => Except.ok (lon, lat)
  | _ => Except.error "ValueError: cannot unpack coordinates"

/-- The coordinate-extraction loop of `generate_route_map`: the first
malformed stop raises. -/
def parseStops : List Stop → Except String (List Coord)
  | [] => Except.ok []
  | s :: rest => do
    let c ← parseCoordinates s.google_map_coordinates
    let cs ← parseStops rest
    Except.ok (c :: cs)

/-- The transport-mode normalisation of `generate_route_map`
(lambda_function.py lines 267-273): lower-case; `ferry` becomes `driving`;
anything outside the known set logs a warning (returned as the second
component) and becomes `walking`. -/
def routeMode (transport_mode : String) : String × List String :=
  let mode := lowerStr transport_mode
  if mode = "ferry" then ("driving", [])
  else if mode = "walking" ∨ mode = "cycling" ∨ mode = "driving" then (mode, [])
  else ("walking", ["Invalid transport mode " ++ mode ++ ", defaulting to walking"])

/-- Outcome of `generate_route_map`: the logged warnings, the trace of
issued requests, and the returned value (exception / None / base64 image). -/
structure RenderOutcome where
  warnings : List String
  requests : List Request
  result : Except String (Option String)
deriving Repr

/-- Embedding of `generate_route_map` (lambda_function.py lines 248-280):
parses the stop coordinates (raising on the first malformed one),
normalises the transport mode, renders with one mode per consecutive stop
pair and the fixed size 500x400. -/
def generate_route_map (itinerary : Itinerary) (mapbox_token : String)
    (dn : Nat → DirResponse) (im : String → ImgResponse) : RenderOutcome :=
  match parseStops itinerary.stops with
  | Except.error e => ⟨[], [], Except.error e⟩
  | Except.ok coordinates =>
    let p := routeMode itinerary.transport_mode
    let modes := List.replicate (coordinates.length - 1) p.1
    let r := static_map_image coordinates modes "500x400" mapbox_token dn im
    ⟨p.2, r.1, r.2⟩

/-- Embedding of `add_paths_to_itinerary` (lambda_function.py lines
227-246): writes a Google-Maps link into every stop but the last, `none`
into the last; `stops[-1]` on an empty stop list raises `IndexError`. -/
def add_paths_to_itinerary (itinerary : Itinerary) : Except String Itinerary :=
  if itinerary.stops.isEmpty then Except.error "IndexError: list index out of range"
  else
    let n := itinerary.stops.length
    let stops2 := itinerary.stops.mapIdx (fun i s =>
      if i + 1 < n then
        { s with path_to_next := some ("https://www.google.com/maps/dir/"
            ++ s.google_map_coordinates ++ "/"
            ++ (itinerary.stops.getD (i + 1) dStop).google_map_coordinates) }
      else { s with path_to_next := none })
    Except.ok { itinerary with stops := stops2 }

/-- The per-itinerary enrichment step of the handler loop
(lambda_function.py lines 326-333): add the inter-stop links, render the
map, attach it when a base64 string came back, log a warning and leave the
itinerary as is when `None` came back, and propagate any exception.
Returns the logged warnings and the itinerary result. -/
def enrichOne (it : Itinerary) (tok : String) (dnk : Nat → DirResponse)
    (imk : String → ImgResponse) : List String × Except String Itinerary :=
  match add_paths_to_itinerary it with
  | Except.error e => ([], Except.error e)
  | Except.ok it1 =>
    let r := generate_route_map it1 tok dnk imk
    match r.result with
    | Except.error e => (r.warnings, Except.error e)
    | Except.ok (some b) => (r.warnings, Except.ok { it1 with map_image := some b })
    | Except.ok none =>
      (r.warnings ++ ["Failed to generate map for itinerary: " ++ it1.package_name],
       Except.ok it1)

/-- The enrichment loop over a batch (lambda_function.py lines 326-333):
itinerary `k` uses the directions oracle `dn k` and image oracle `im k`;
the first exception aborts the loop (and, in the handler, the whole
response). -/
def enrichAll (its : List Itinerary) (tok : String) (dn : Nat → Nat → DirResponse)
    (im : Nat → String → ImgResponse) : List String × Except String (List Itinerary) :=
  match its with
  | [] => ([], Except.ok [])
  | it :: rest =>
    let p := enrichOne it tok (dn 0) (im 0)
    match p.2 with
    | Except.error e => (p.1, Except.error e)
    | Except.ok it2 =>
      let q := enrichAll rest tok (fun k => dn (k + 1)) (fun k => im (k + 1))
      (p.1 ++ q.1,
       match q.2 with
       | Except.error e => Except.error e
       | Except.ok outs => Except.ok (it2 :: outs))

/-- A JSON value, as decoded by `json.loads`, with Python truthiness in
mind (ints suffice for the budget claims). -/
inductive JValue where
  | null
  | bool (b : Bool)
  | num (n : Int)
  | str (s : String)
  | arr (xs : List JValue)

/-- Python truthiness of a decoded JSON value. -/
def JValue.truthy : JValue → Bool
  | .null => false
  | .bool b => b
  | .num n => n != 0
  | .str s => s != ""
  | .arr xs => !xs.isEmpty

/-- Model of `dict.get`: the first binding of the key, if any. -/
def getKey (data : List (String × JValue)) (k : String) : Option JValue :=
  (data.find? (fun p => p.1 == k)).map (fun p => p.2)

/-- Python truthiness of `dict.get`'s result (`None` is falsy). -/
def truthyOpt : Option JValue → Bool
  | none => false
  | some v => v.truthy

/-- The `isinstance(..., str)` test on `dict.get`'s result. -/
def isStrOpt : Option JValue → Bool
  | some (JValue.str _) => true
  | _ => false

/-- Embedding of `validate_input` (lambda_function.py lines 153-168): an
absent/falsy/non-string city and an absent-or-falsy budget each add one
error message.  Note that the budget check is bare truthiness: the integer
0 fails it. -/
def validate_input (data : List (String × JValue)) : List (String × String) :=
  (if !truthyOpt (getKey data "city") || !isStrOpt (getKey data "city") then
    [("city", "Invalid city name")]
  else []) ++
  (if !truthyOpt (getKey data "budget") then [("budget", "Invalid budget")] else [])

/-- The body of a handler response: a plain message, the validation error
map, or the enriched itineraries. -/
inductive HandlerBody where
  | message (s : String)
  | errors (errs : List (String × String))
  | itineraries (its : List Itinerary)
deriving DecidableEq, Repr

/-- A handler response together with the observables the claims are about:
whether the LLM generation was invoked, and the warnings logged by the
enrichment loop. -/
structure HandlerResult where
  statusCode : Nat
  body : HandlerBody
  llmCalled : Bool
  warnings : List String
deriving DecidableEq, Repr

/-- Embedding of `lambda_handler` (lambda_function.py lines 282-345).
`body` is the JSON-decoded request body (`none` models a decode failure),
`llm` the outcome of `generate_itinerary` plus `json.loads` (an external
collaborator, treated as an oracle), `mapboxToken` the secret lookup, and
`dn`/`im` the per-itinerary network oracles.  Any exception inside the
enrichment loop is caught by the outer handler and turned into a 500
response with no itineraries. -/
def lambda_handler (body : Option (List (String × JValue)))
    (llm : Except String (List Itinerary)) (mapboxToken : Option String)
    (dn : Nat → Nat → DirResponse) (im : Nat → String → ImgResponse) : HandlerResult :=
  match body with
  | none => ⟨400, HandlerBody.message "Invalid JSON in request body", false, []⟩
  | some data =>
    let errors := validate_input data
    if errors.isEmpty then
      match llm with
      | Except.error e =>
        ⟨500, HandlerBody.message ("An error occurred while processing your request: " ++ e),
         true, []⟩
      | Except.ok its =>
        let token := match mapboxToken with | none => "" | some s => s
        if token = "" then ⟨500, HandlerBody.message "Missing Mapbox configuration", true, []⟩
        else
          let r := enrichAll its token dn im
          match r.2 with
          | Except.error e =>
            ⟨500, HandlerBody.message ("An error occurred while processing your request: " ++ e),
             true, r.1⟩
          | Except.ok outs => ⟨200, HandlerBody.itineraries outs, true, r.1⟩
    else ⟨400, HandlerBody.errors errors, false, []⟩

/-- A rate-limited directions response (HTTP 429, error body w/o routes). -/
def rateLimited : DirResponse := ⟨429, none⟩

/-- A successful directions response carrying one route geometry. -/
def okRoute (g : String) : DirResponse := ⟨200, some [g]⟩

/-- Attempt oracle whose every response is rate-limited. -/
def netAllLimited : Nat → DirResponse := fun _ => rateLimited

/-- Attempt oracle that is rate-limited on the first attempt and would
succeed on every retry. -/
def netLimitedThenOk : Nat → DirResponse := fun k =>
  if k = 0 then rateLimited else okRoute "abc"

/-- Segment oracle whose every directions response lacks routes. -/
def dnNoRoutes : Nat → DirResponse := fun _ => ⟨500, none⟩

/-- Segment oracle whose every directions response succeeds with a fixed
geometry. -/
def dnAllOk : Nat → DirResponse := fun _ => okRoute "abc"

/-- Image oracle answering 404 with an empty body. -/
def im404 : String → ImgResponse := fun _ => ⟨404, []⟩

/-- Image oracle answering 200 with a tiny body. -/
def imOk : String → ImgResponse := fun _ => ⟨200, [77, 78]⟩

/-- A concrete well-formed stop at given printed coordinates. -/
def mkStop (coords : String) : Stop :=
  { location_title := "T", location_address := "A", duration := "1h", cost := 5,
    currency := "CAD", google_map_coordinates := coords }

/-- A two-stop walking itinerary used as concrete input. -/
def itWalk : Itinerary :=
  { stops := [mkStop "43.64,-79.38", mkStop "43.65,-79.37"], total_duration := "2h",
    total_cost := 10, location_currency := "CAD", summary := "S", package_name := "P1",
    start := "9am", end_ := "11am", total_distance := "3km", transport_mode := "walking" }

/-- A second two-stop walking itinerary used as concrete input. -/
def itWalk2 : Itinerary :=
  { itWalk with package_name := "P2" }

/-- A two-stop itinerary whose transport mode is the string "Ferry". -/
def itFerry : Itinerary :=
  { itWalk with package_name := "PF", transport_mode := "Ferry" }

/-- The parsed coordinates of `itWalk` (and of `itFerry`). -/
def csWalk : List Coord := [("-79.38", "43.64"), ("-79.37", "43.65")]

/-- A request body with a valid city and a positive budget. -/
def dataGood : List (String × JValue) :=
  [("city", JValue.str "Toronto"), ("budget", JValue.num 50)]

/-- A request body with a valid city and the integer budget 0. -/
def dataZeroBudget : List (String × JValue) :=
  [("city", JValue.str "Toronto"), ("budget", JValue.num 0)]

/-- Batch-level directions oracle: every itinerary, every segment succeeds. -/
def dn2Ok : Nat → Nat → DirResponse := fun _ _ => okRoute "abc"

/-- Batch-level directions oracle: every directions response lacks routes. -/
def dn2Bad : Nat → Nat → DirResponse := fun _ _ => ⟨500, none⟩

/-- Batch-level image oracle: every fetch answers 404. -/
def im2Fail : Nat → String → ImgResponse := fun _ _ => ⟨404, []⟩

/-- Batch-level image oracle: every fetch answers 200. -/
def im2Ok : Nat → String → ImgResponse := fun _ _ => ⟨200, [77, 78]⟩

/-- A concrete three-coordinate list for instantiations. -/
def csThree : List Coord := [("1", "2"), ("3", "4"), ("5", "6")]

/- ---------------------------------------------------------------------
Theorems.
--------------------------------------------------------------------- -/

theorem pointToken_zero (n : Nat) (c : Coord) : pointToken n 0 c = startMarker c := rfl

theorem pointToken_last (m : Nat) (c : Coord) :
    pointToken (m + 2) (m + 1) c = endMarker (m + 2) c := by
  unfold pointToken endMarker
  have hc : m + 1 = m + 2 - 1 := by omega
  rw [if_neg (Nat.succ_ne_zero m), if_pos hc]

theorem pointToken_mid (n i : Nat) (c : Coord) (h0 : i ≠ 0) (h1 : i ≠ n - 1) :
    pointToken n i c = wayMarker (i + 1) c := by
  unfold pointToken wayMarker
  rw [if_neg h0, if_neg h1]

theorem range_map_split {α : Type} (m : Nat) (f : Nat → α) :
    (List.range (m + 2)).map f
      = f 0 :: (((List.range m).map fun j => f (j + 1)) ++ [f (m + 1)]) := by
  rw [List.range_succ, List.map_append, List.range_succ_eq_map, List.map_cons, List.map_map]
  rfl

theorem getD_range_map {α : Type} (f : Nat → α) {n i : Nat} (d : α) (h : i < n) :
    ((List.range n).map f).getD i d = f i := by
  simp [List.getD, List.getElem?_map, List.getElem?_range h]

/-- C1: the claim states that a rate-limited directions response is retried
with exponential backoff up to 3 attempts.  Counterexample: with a network
that rate-limits the first attempt and would succeed on any retry,
`direction_path` performs exactly 1 attempt (not 2 or 3) and fails with the
`KeyError` raised on the rate-limit body, instead of retrying and
succeeding. -/
theorem C1_counterexample :
    (direction_path ("-79.38", "43.64") ("-79.37", "43.65") "walking" "tok" netLimitedThenOk).2
      = 1 ∧
    (direction_path ("-79.38", "43.64") ("-79.37", "43.65") "walking" "tok" netLimitedThenOk).1
      = Except.error "KeyError: routes" :=
  ⟨rfl, rfl⟩

/-- C1 (amended): `direction_path` performs exactly one network attempt per
call, with no retry, no backoff and no inspection of the status code: its
outcome depends only on the first response, so two networks agreeing on the
first attempt give identical results. -/
theorem C1_single_attempt (s e : Coord) (mode tok : String) (net net2 : Nat → DirResponse)
    (h : net 0 = net2 0) :
    (direction_path s e mode tok net).2 = 1 ∧
    direction_path s e mode tok net = direction_path s e mode tok net2 := by
  refine ⟨rfl, ?_⟩
  simp only [direction_path, h]

/-- C1 witness: an always-rate-limited network and one that recovers after
the first attempt are indistinguishable to `direction_path`, which makes
one attempt. -/
theorem C1_witness :
    (direction_path ("-79.38", "43.64") ("-79.37", "43.65") "walking" "tok" netAllLimited).2
      = 1 ∧
    direction_path ("-79.38", "43.64") ("-79.37", "43.65") "walking" "tok" netAllLimited
      = direction_path ("-79.38", "43.64") ("-79.37", "43.65") "walking" "tok" netLimitedThenOk :=
  C1_single_attempt _ _ _ _ _ _ rfl

/-- C4: for a nonempty coordinate list, the marker tokens are exactly one
start-style token (large pin, label 1, color 26a269) — which is the single
token produced when the length is 1 — exactly one end-style token (large
pin, label `length`, color ff0000) when the length is at least 2, and
`length - 2` uniform waypoint tokens (small pin, color 555555) labelled by
their 1-based position; on the empty input `encoding_points` returns the
empty string (and, being total, never throws). -/
theorem C4_encode_markers (cs : List Coord) (_h : cs ≠ []) :
    (cs.length = 1 → pointTokens cs = [startMarker (cs.getD 0 dCoord)]) ∧
    (2 ≤ cs.length →
      pointTokens cs =
        startMarker (cs.getD 0 dCoord) ::
          (((List.range (cs.length - 2)).map
              (fun j => wayMarker (j + 2) (cs.getD (j + 1) dCoord))) ++
            [endMarker cs.length (cs.getD (cs.length - 1) dCoord)])) ∧
    encoding_points ([] : List Coord) = "" := by
  refine ⟨?_, ?_, rfl⟩
  · intro h1
    simp only [pointTokens, h1]
    rw [show List.range 1 = [0] from rfl, List.map_cons, List.map_nil, pointToken_zero]
  · intro h2
    obtain ⟨m, hm⟩ : ∃ m, cs.length = m + 2 := ⟨cs.length - 2, by omega⟩
    have hA : m + 2 - 2 = m := by omega
    have hB : m + 2 - 1 = m + 1 := by omega
    simp only [pointTokens, hm, hA, hB]
    rw [range_map_split]
    have hmap : List.map (fun j => pointToken (m + 2) (j + 1) (cs.getD (j + 1) dCoord))
          (List.range m)
        = List.map (fun j => wayMarker (j + 2) (cs.getD (j + 1) dCoord)) (List.range m) := by
      refine List.map_congr_left ?_
      intro j hj
      rw [List.mem_range] at hj
      exact pointToken_mid (m + 2) (j + 1) _ (by omega) (by omega)
    exact congrArg₂ List.cons (pointToken_zero _ _)
      (congrArg₂ (· ++ ·) hmap (congrArg (fun x => [x]) (pointToken_last _ _)))

/-- C4 witness: on a concrete three-coordinate list the tokens are the
start marker, one waypoint labelled 2, and the end marker labelled 3. -/
theorem C4_witness :
    pointTokens csThree
      = [startMarker ("1", "2"), wayMarker 2 ("3", "4"), endMarker 3 ("5", "6")] := by
  rw [(C4_encode_markers csThree (by decide)).2.1 (by decide)]
  decide

/-- C5 counterexample: the claim states that an unmapped mode gets a
fallback neutral stroke color.  On the unmapped mode "ferry" the emitted
token is `path-3(g)`: it carries no color component at all (not even a `+`
separator occurs in it), so no fallback color is used. -/
theorem C5_counterexample :
    encoding_path ["g"] ["ferry"] = "path-3(g)" ∧
    ("path-3(g)".data.count '+') = 0 := by
  exact ⟨by decide, by decide⟩

/-- C5 (amended): for equal-length geometry and mode lists, `encoding_path`
emits exactly one path token per input pair; each token has stroke width 3
and the stroke color of the fixed table (walking → 0000ff, cycling →
ff0000, driving → 2bff00), while every unmapped mode yields a width-only
token with no color component, deferring to the provider's default
styling. -/
theorem C5_path_tokens (paths_coordinates modes : List String)
    (_h : paths_coordinates.length = modes.length) :
    (pathTokens paths_coordinates modes).length = paths_coordinates.length ∧
    ∀ i, i < paths_coordinates.length →
      (pathTokens paths_coordinates modes).getD i "" =
        (if modes.getD i "" = "driving" then
          "path-3+2bff00(" ++ paths_coordinates.getD i "" ++ "),"
        else if modes.getD i "" = "walking" then
          "path-3+0000ff(" ++ paths_coordinates.getD i "" ++ "),"
        else if modes.getD i "" = "cycling" then
          "path-3+ff0000(" ++ paths_coordinates.getD i "" ++ "),"
        else "path-3(" ++ paths_coordinates.getD i "" ++ "),") := by
  refine ⟨by simp [pathTokens], ?_⟩
  intro i hi
  rw [pathTokens, getD_range_map _ _ hi]
  rfl

/-- C5 witness: a concrete two-pair input has exactly two tokens. -/
theorem C5_witness :
    (pathTokens ["g1", "g2"] ["walking", "ferry"]).length = 2 :=
  (C5_path_tokens ["g1", "g2"] ["walking", "ferry"] rfl).1

theorem runSegments_no_image (coordinates : List Coord) (modes : List String)
    (access_token : String) (dn : Nat → DirResponse) (is : List Nat) (url : String) :
    Request.image url ∉ (runSegments coordinates modes access_token dn is).1 := by
  induction is with
  | nil => simp [runSegments]
  | cons i rest ih =>
    simp only [runSegments]
    cases hx : (direction_path (coordinates.getD i dCoord) (coordinates.getD (i + 1) dCoord)
        (modes.getD i "") access_token (fun _ => dn i)).1 with
    | error err => simp
    | ok g =>
      simp only [List.mem_cons, not_or]
      exact ⟨by simp, ih⟩

theorem runSegments_error_of_mem (coordinates : List Coord) (modes : List String)
    (access_token : String) (dn : Nat → DirResponse) (is : List Nat) (i : Nat) (e : String)
    (hmem : i ∈ is) (he : extractGeometry (dn i) = Except.error e) :
    ∃ e2, (runSegments coordinates modes access_token dn is).2 = Except.error e2 := by
  induction is with
  | nil => cases hmem
  | cons j rest ih =>
    simp only [runSegments]
    cases hx : (direction_path (coordinates.getD j dCoord) (coordinates.getD (j + 1) dCoord)
        (modes.getD j "") access_token (fun _ => dn j)).1 with
    | error err => exact ⟨err, rfl⟩
    | ok g =>
      rcases List.mem_cons.mp hmem with hij | hrest
      · subst hij
        rw [show (direction_path (coordinates.getD i dCoord) (coordinates.getD (i + 1) dCoord)
            (modes.getD i "") access_token (fun _ => dn i)).1 = extractGeometry (dn i) from rfl,
          he] at hx
        cases hx
      · obtain ⟨e2, he2⟩ := ih hrest
        rw [he2]
        exact ⟨e2, rfl⟩

theorem runSegments_ok_of_forall (coordinates : List Coord) (modes : List String)
    (access_token : String) (dn : Nat → DirResponse) (is : List Nat)
    (h : ∀ i ∈ is, ∃ g, extractGeometry (dn i) = Except.ok g) :
    ∃ gs, (runSegments coordinates modes access_token dn is).2 = Except.ok gs := by
  induction is with
  | nil => exact ⟨[], rfl⟩
  | cons j rest ih =>
    obtain ⟨g, hg⟩ := h j (List.mem_cons_self j rest)
    obtain ⟨gs, hgs⟩ := ih (fun i hi => h i (List.mem_cons_of_mem j hi))
    simp only [runSegments]
    rw [show (direction_path (coordinates.getD j dCoord) (coordinates.getD (j + 1) dCoord)
        (modes.getD j "") access_token (fun _ => dn j)).1 = extractGeometry (dn j) from rfl, hg]
    rw [hgs]
    exact ⟨g :: gs, rfl⟩

/-- C6: if any segment's directions call fails (the response carries no
usable route), the whole render fails with an exception — no partial map is
produced — and the trace contains no image-fetch request at all. -/
theorem C6_failfast (coordinates : List Coord) (modes : List String) (size access_token : String)
    (dn : Nat → DirResponse) (im : String → ImgResponse) (i : Nat) (e : String)
    (hi : i < coordinates.length - 1) (he : extractGeometry (dn i) = Except.error e) :
    (∃ e2, (static_map_image coordinates modes size access_token dn im).2 = Except.error e2) ∧
    ∀ url, Request.image url ∉ (static_map_image coordinates modes size access_token dn im).1 := by
  obtain ⟨e2, he2⟩ := runSegments_error_of_mem coordinates modes access_token dn
    (List.range (coordinates.length - 1)) i e (List.mem_range.mpr hi) he
  constructor
  · refine ⟨e2, ?_⟩
    simp only [static_map_image, he2]
  · intro url
    simp only [static_map_image, he2]
    exact runSegments_no_image coordinates modes access_token dn _ url

/-- C6 witness: with two coordinates and a directions service that never
returns a route, the render raises and no image fetch is issued. -/
theorem C6_witness :
    Request.image "u"
      ∉ (static_map_image [("1", "2"), ("3", "4")] ["walking"] "500x400" "tok"
          dnNoRoutes im404).1 :=
  (C6_failfast [("1", "2"), ("3", "4")] ["walking"] "500x400" "tok" dnNoRoutes im404 0
    "KeyError: routes" (by decide) rfl).2 "u"

/-- C7: when every segment call succeeds, `static_map_image` performs the
image fetch and never raises: it returns the fetched bytes base64-encoded
on a 200 response and the failure value `none` on any other (in particular
any non-2xx) status. -/
theorem C7_image_fetch (coordinates : List Coord) (modes : List String)
    (size access_token : String) (dn : Nat → DirResponse) (im : String → ImgResponse)
    (hseg : ∀ i, i < coordinates.length - 1 → ∃ g, extractGeometry (dn i) = Except.ok g) :
    ∃ url,
      Request.image url ∈ (static_map_image coordinates modes size access_token dn im).1 ∧
      ((im url).status = 200 →
        (static_map_image coordinates modes size access_token dn im).2
          = Except.ok (some (base64Encode (im url).content))) ∧
      ((im url).status ≠ 200 →
        (static_map_image coordinates modes size access_token dn im).2 = Except.ok none) ∧
      ∃ v, (static_map_image coordinates modes size access_token dn im).2 = Except.ok v := by
  obtain ⟨gs, hgs⟩ := runSegments_ok_of_forall coordinates modes access_token dn
    (List.range (coordinates.length - 1)) (fun i hi => hseg i (List.mem_range.mp hi))
  refine ⟨"https://api.mapbox.com/styles/v1/mapbox/outdoors-v12/static/"
      ++ quote (encoding_path gs modes) ++ "," ++ encoding_points coordinates ++ "/auto/"
      ++ size ++ "@2x?access_token=" ++ access_token, ?_, ?_, ?_, ?_⟩
  · simp [static_map_image, hgs]
  · intro h200
    simp [static_map_image, hgs, h200]
  · intro hno
    simp [static_map_image, hgs, if_neg hno]
  · by_cases h200 : (im ("https://api.mapbox.com/styles/v1/mapbox/outdoors-v12/static/"
        ++ quote (encoding_path gs modes) ++ "," ++ encoding_points coordinates ++ "/auto/"
        ++ size ++ "@2x?access_token=" ++ access_token)).status = 200
    · refine ⟨some (base64Encode
        (im ("https://api.mapbox.com/styles/v1/mapbox/outdoors-v12/static/"
          ++ quote (encoding_path gs modes) ++ "," ++ encoding_points coordinates ++ "/auto/"
          ++ size ++ "@2x?access_token=" ++ access_token)).content), ?_⟩
      simp [static_map_image, hgs, h200]
    · exact ⟨none, by simp [static_map_image, hgs, if_neg h200]⟩

/-- C7 witness: a single-coordinate render (no segments) against a 404
image service returns the failure value `none` rather than raising. -/
theorem C7_witness :
    ∃ v, (static_map_image [("1", "2")] [] "500x400" "tok" dnNoRoutes im404).2
      = Except.ok v := by
  obtain ⟨url, _hmem, _h200, hno, _⟩ :=
    C7_image_fetch [("1", "2")] [] "500x400" "tok" dnNoRoutes im404
      (by intro i hi; simp at hi)
  exact ⟨none, hno (by simp [im404])⟩

/-- C9: a single-stop render issues zero directions calls and exactly one
image fetch; the path component of the composed request is empty (there
are no path tokens), so the request is markers-only, and the render
returns a value rather than raising. -/
theorem C9_single_stop (c : Coord) (modes : List String) (size access_token : String)
    (dn : Nat → DirResponse) (im : String → ImgResponse) :
    encoding_path [] modes = "" ∧
    ∃ b, static_map_image [c] modes size access_token dn im
      = ([Request.image ("https://api.mapbox.com/styles/v1/mapbox/outdoors-v12/static/"
          ++ "," ++ encoding_points [c] ++ "/auto/" ++ size ++ "@2x?access_token="
          ++ access_token)], Except.ok b) := by
  constructor
  · rfl
  · have hrun : runSegments [c] modes access_token dn (List.range ([c].length - 1))
        = ([], Except.ok []) := rfl
    by_cases h200 : (im ("https://api.mapbox.com/styles/v1/mapbox/outdoors-v12/static/"
        ++ quote (encoding_path [] modes) ++ "," ++ encoding_points [c] ++ "/auto/" ++ size
        ++ "@2x?access_token=" ++ access_token)).status = 200
    · refine ⟨some (base64Encode
        (im ("https://api.mapbox.com/styles/v1/mapbox/outdoors-v12/static/"
          ++ quote (encoding_path [] modes) ++ "," ++ encoding_points [c] ++ "/auto/" ++ size
          ++ "@2x?access_token=" ++ access_token)).content), ?_⟩
      simp only [static_map_image, hrun]
      rw [if_pos h200]
      rfl
    · refine ⟨none, ?_⟩
      simp only [static_map_image, hrun]
      rw [if_neg h200]
      rfl

theorem dirModes_append (l1 l2 : List Request) :
    dirModes (l1 ++ l2) = dirModes l1 ++ dirModes l2 := by
  induction l1 with
  | nil => rfl
  | cons r rest ih =>
    cases r with
    | directions s e m => simp [dirModes, ih]
    | image u => simp [dirModes, ih]

theorem mem_dirModes_runSegments (coordinates : List Coord) (modes : List String)
    (access_token : String) (dn : Nat → DirResponse) (is : List Nat) (x : String)
    (hx : x ∈ dirModes (runSegments coordinates modes access_token dn is).1) :
    ∃ i, i ∈ is ∧ x = modes.getD i "" := by
  induction is with
  | nil => cases hx
  | cons j rest ih =>
    revert hx
    simp only [runSegments]
    cases hd : (direction_path (coordinates.getD j dCoord) (coordinates.getD (j + 1) dCoord)
        (modes.getD j "") access_token (fun _ => dn j)).1 with
    | error err =>
      intro hx
      simp only [dirModes, List.mem_cons, List.not_mem_nil, or_false] at hx
      exact ⟨j, List.mem_cons_self j rest, hx⟩
    | ok g =>
      intro hx
      simp only [dirModes, List.mem_cons] at hx
      rcases hx with h1 | h2
      · exact ⟨j, List.mem_cons_self j rest, h1⟩
      · obtain ⟨i, hi, hx2⟩ := ih h2
        exact ⟨i, List.mem_cons_of_mem j hi, hx2⟩

theorem getD_replicate_of_lt {α : Type} (n i : Nat) (a d : α) (h : i < n) :
    (List.replicate n a).getD i d = a := by
  simp [List.getD, List.getElem?_replicate, h]

theorem dirModes_static (coordinates : List Coord) (modes : List String)
    (size access_token : String) (dn : Nat → DirResponse) (im : String → ImgResponse) :
    dirModes (static_map_image coordinates modes size access_token dn im).1
      = dirModes
          (runSegments coordinates modes access_token dn
            (List.range (coordinates.length - 1))).1 := by
  simp only [static_map_image]
  cases hseg : (runSegments coordinates modes access_token dn
      (List.range (coordinates.length - 1))).2 with
  | error e => rfl
  | ok gs => simp [dirModes_append, dirModes]

theorem generate_route_map_modes (it : Itinerary) (tok : String) (dn : Nat → DirResponse)
    (im : String → ImgResponse) (cs : List Coord) (mo : String) (ws : List String)
    (hp : parseStops it.stops = Except.ok cs) (hr : routeMode it.transport_mode = (mo, ws)) :
    dirModes (generate_route_map it tok dn im).requests
      = List.replicate (dirModes (generate_route_map it tok dn im).requests).length mo ∧
    (generate_route_map it tok dn im).warnings = ws := by
  have hreq : (generate_route_map it tok dn im).requests
      = (static_map_image cs (List.replicate (cs.length - 1) mo) "500x400" tok dn im).1 := by
    simp [generate_route_map, hp, hr]
  have hw : (generate_route_map it tok dn im).warnings = ws := by
    simp [generate_route_map, hp, hr]
  refine ⟨?_, hw⟩
  rw [hreq, dirModes_static]
  refine List.eq_replicate_iff.mpr ⟨rfl, ?_⟩
  intro b hb
  obtain ⟨i, hi, hx⟩ := mem_dirModes_runSegments _ _ _ _ _ b hb
  rw [List.mem_range] at hi
  rw [hx]
  exact getD_replicate_of_lt _ _ _ _ hi

theorem add_paths_fields (it it1 : Itinerary)
    (h : add_paths_to_itinerary it = Except.ok it1) :
    it1.transport_mode = it.transport_mode ∧ it1.map_image = it.map_image ∧
    it1.package_name = it.package_name := by
  unfold add_paths_to_itinerary at h
  by_cases he : it.stops.isEmpty
  · rw [if_pos he] at h
    cases h
  · rw [if_neg he] at h
    simp only [Except.ok.injEq] at h
    subst h
    exact ⟨rfl, rfl, rfl⟩

theorem enrichOne_transport (it : Itinerary) (tok : String) (dnk : Nat → DirResponse)
    (imk : String → ImgResponse) (it2 : Itinerary)
    (h : (enrichOne it tok dnk imk).2 = Except.ok it2) :
    it2.transport_mode = it.transport_mode := by
  cases hap : add_paths_to_itinerary it with
  | error e => simp [enrichOne, hap] at h
  | ok it1 =>
    have h1 := (add_paths_fields it it1 hap).1
    cases hres : (generate_route_map it1 tok dnk imk).result with
    | error e => simp [enrichOne, hap, hres] at h
    | ok ob =>
      cases ob with
      | some b =>
        simp only [enrichOne, hap, hres] at h
        simp only [Except.ok.injEq] at h
        subst h
        exact h1
      | none =>
        simp only [enrichOne, hap, hres] at h
        simp only [Except.ok.injEq] at h
        subst h
        exact h1

/-- C8: an itinerary whose case-normalised transport mode is "ferry" is
rendered with "driving" styling for every segment (every directions call
uses mode "driving") and no warning is logged; a mode outside
{walking, cycling, driving, ferry} is rendered with "walking" styling for
every segment and the fact is logged; in both cases the itinerary's own
`transport_mode` field is unchanged in the enriched output. -/
theorem C8_mode_policy (it : Itinerary) (tok : String) (dn : Nat → DirResponse)
    (im : String → ImgResponse) (cs : List Coord)
    (hp : parseStops it.stops = Except.ok cs) :
    (lowerStr it.transport_mode = "ferry" →
      routeMode it.transport_mode = ("driving", []) ∧
      dirModes (generate_route_map it tok dn im).requests
        = List.replicate (dirModes (generate_route_map it tok dn im).requests).length
            "driving" ∧
      (generate_route_map it tok dn im).warnings = []) ∧
    (lowerStr it.transport_mode ∉ (["walking", "cycling", "driving", "ferry"] : List String) →
      routeMode it.transport_mode
        = ("walking",
            ["Invalid transport mode " ++ lowerStr it.transport_mode
              ++ ", defaulting to walking"]) ∧
      dirModes (generate_route_map it tok dn im).requests
        = List.replicate (dirModes (generate_route_map it tok dn im).requests).length
            "walking" ∧
      (generate_route_map it tok dn im).warnings
        = ["Invalid transport mode " ++ lowerStr it.transport_mode
            ++ ", defaulting to walking"]) ∧
    (∀ dnk imk it2, (enrichOne it tok dnk imk).2 = Except.ok it2 →
      it2.transport_mode = it.transport_mode) := by
  refine ⟨?_, ?_, fun dnk imk it2 h => enrichOne_transport it tok dnk imk it2 h⟩
  · intro hferry
    have hr : routeMode it.transport_mode = ("driving", []) := by
      simp [routeMode, hferry]
    obtain ⟨hmodes, hw⟩ := generate_route_map_modes it tok dn im cs "driving" [] hp hr
    exact ⟨hr, hmodes, hw⟩
  · intro hnot
    have h4 : lowerStr it.transport_mode ≠ "walking" ∧ lowerStr it.transport_mode ≠ "cycling"
        ∧ lowerStr it.transport_mode ≠ "driving" ∧ lowerStr it.transport_mode ≠ "ferry" := by
      simpa using hnot
    have hr : routeMode it.transport_mode
        = ("walking",
            ["Invalid transport mode " ++ lowerStr it.transport_mode
              ++ ", defaulting to walking"]) := by
      simp only [routeMode]
      rw [if_neg h4.2.2.2, if_neg (by simp [h4.1, h4.2.1, h4.2.2.1])]
    obtain ⟨hmodes, hw⟩ := generate_route_map_modes it tok dn im cs "walking" _ hp hr
    exact ⟨hr, hmodes, hw⟩

/-- C8 witness: the concrete "Ferry" itinerary is rendered with every
directions call in "driving" mode. -/
theorem C8_witness :
    dirModes (generate_route_map itFerry "tok" dnAllOk imOk).requests
      = List.replicate
          (dirModes (generate_route_map itFerry "tok" dnAllOk imOk).requests).length
          "driving" :=
  ((C8_mode_policy itFerry "tok" dnAllOk imOk csWalk rfl).1 (by decide)).2.1

theorem enrichAll_ok (its : List Itinerary) (tok : String) (dn : Nat → Nat → DirResponse)
    (im : Nat → String → ImgResponse)
    (h : ∀ j, j < its.length → ∃ it2,
      (enrichOne (its.getD j dItin) tok (dn j) (im j)).2 = Except.ok it2) :
    ∃ outs ws, enrichAll its tok dn im = (ws, Except.ok outs) ∧
      outs.length = its.length ∧
      (∀ j, j < its.length →
        (enrichOne (its.getD j dItin) tok (dn j) (im j)).2 = Except.ok (outs.getD j dItin) ∧
        ∀ w ∈ (enrichOne (its.getD j dItin) tok (dn j) (im j)).1, w ∈ ws) := by
  induction its generalizing dn im with
  | nil =>
    exact ⟨[], [], rfl, rfl, fun j hj => absurd hj (by simp)⟩
  | cons it rest ih =>
    obtain ⟨it2, h0⟩ := h 0 (by simp)
    simp only [List.getD_cons_zero] at h0
    obtain ⟨outs, ws, hEq, hLen, hPer⟩ := ih (fun k => dn (k + 1)) (fun k => im (k + 1))
      (fun j hj => by
        have hx := h (j + 1) (by simpa using Nat.succ_lt_succ hj)
        simpa [List.getD_cons_succ] using hx)
    refine ⟨it2 :: outs, (enrichOne it tok (dn 0) (im 0)).1 ++ ws, ?_, by simp [hLen], ?_⟩
    · simp only [enrichAll, h0, hEq]
    · intro j hj
      cases j with
      | zero =>
        refine ⟨by simpa using h0, ?_⟩
        intro w hw
        exact List.mem_append_left _ hw
      | succ k =>
        have hk : k < rest.length := by simpa using hj
        obtain ⟨ha, hb⟩ := hPer k hk
        refine ⟨by simpa [List.getD_cons_succ] using ha, ?_⟩
        intro w hw
        exact List.mem_append_right _ (hb w (by simpa [List.getD_cons_succ] using hw))

/-- C3 counterexample: the claim states that a map-generation failure of
any kind is isolated to its itinerary and never aborts the batch or the
overall response.  Concretely: a batch of two itineraries where the first
itinerary's directions call returns a body with no routes (an exception,
not a `None` return) makes the handler return 500 with a plain error
message — no itinerary of the batch is enriched or returned at all. -/
theorem C3_counterexample :
    (lambda_handler (some dataGood) (Except.ok [itWalk, itWalk2]) (some "tok") dn2Bad
        im2Ok).statusCode = 500 ∧
    (lambda_handler (some dataGood) (Except.ok [itWalk, itWalk2]) (some "tok") dn2Bad
        im2Ok).body
      = HandlerBody.message
          "An error occurred while processing your request: KeyError: routes" :=
  ⟨rfl, rfl⟩

/-- C3 (amended): only an image-fetch failure (the compositor returning
`None`) is isolated per itinerary: it yields a logged warning and an
unchanged (map-less) itinerary, and when every itinerary's enrichment
returns a value (no exception), the handler answers 200 with one output
itinerary per input and all per-itinerary warnings logged.  A
map-generation exception (directions failure, malformed coordinate)
instead aborts the whole batch with a 500 response (see the
counterexample). -/
theorem C3_isolation (data : List (String × JValue)) (its : List Itinerary) (tok : String)
    (dn : Nat → Nat → DirResponse) (im : Nat → String → ImgResponse)
    (hv : validate_input data = []) (htok : tok ≠ "")
    (h : ∀ j, j < its.length → ∃ it2,
      (enrichOne (its.getD j dItin) tok (dn j) (im j)).2 = Except.ok it2) :
    (∃ outs,
      (lambda_handler (some data) (Except.ok its) (some tok) dn im).statusCode = 200 ∧
      (lambda_handler (some data) (Except.ok its) (some tok) dn im).body
        = HandlerBody.itineraries outs ∧
      outs.length = its.length ∧
      ∀ j, j < its.length →
        (enrichOne (its.getD j dItin) tok (dn j) (im j)).2 = Except.ok (outs.getD j dItin) ∧
        ∀ w ∈ (enrichOne (its.getD j dItin) tok (dn j) (im j)).1,
          w ∈ (lambda_handler (some data) (Except.ok its) (some tok) dn im).warnings) ∧
    (∀ it dnk imk it1, add_paths_to_itinerary it = Except.ok it1 →
      (generate_route_map it1 tok dnk imk).result = Except.ok none →
      (enrichOne it tok dnk imk).2 = Except.ok it1 ∧
      ("Failed to generate map for itinerary: " ++ it1.package_name)
        ∈ (enrichOne it tok dnk imk).1 ∧
      it1.map_image = it.map_image) := by
  constructor
  · obtain ⟨outs, ws, hEq, hLen, hPer⟩ := enrichAll_ok its tok dn im h
    have hH : lambda_handler (some data) (Except.ok its) (some tok) dn im
        = ⟨200, HandlerBody.itineraries outs, true, ws⟩ := by
      simp [lambda_handler, hv, htok, hEq]
    refine ⟨outs, by rw [hH], by rw [hH], hLen, ?_⟩
    intro j hj
    obtain ⟨ha, hb⟩ := hPer j hj
    refine ⟨ha, ?_⟩
    intro w hw
    rw [hH]
    exact hb w hw
  · intro it dnk imk it1 hap hres
    have hmi := (add_paths_fields it it1 hap).2.1
    refine ⟨?_, ?_, hmi⟩
    · simp [enrichOne, hap, hres]
    · simp [enrichOne, hap, hres]

/-- C3 witness: a one-itinerary batch whose single image fetch answers 404
still gets a 200 response. -/
theorem C3_witness :
    (lambda_handler (some dataGood) (Except.ok [itWalk]) (some "tok") dn2Ok
        im2Fail).statusCode = 200 := by
  have hh : ∀ j, j < ([itWalk] : List Itinerary).length → ∃ it2,
      (enrichOne (([itWalk] : List Itinerary).getD j dItin) "tok" (dn2Ok j) (im2Fail j)).2
        = Except.ok it2 := by
    intro j hj
    have hj0 : j = 0 := by simpa using hj
    subst hj0
    exact ⟨_, rfl⟩
  obtain ⟨outs, h200, _⟩ :=
    (C3_isolation dataGood [itWalk] "tok" dn2Ok im2Fail rfl (by decide) hh).1
  exact h200

/-- C10: any request body whose budget entry is falsy — the integer 0 in
particular, and likewise null, the empty string or an absent key — fails
validation with exactly the error "Invalid budget", and the handler
answers 400 with that error map without ever invoking the itinerary
generation. -/
theorem C10_budget_falsy (data : List (String × JValue))
    (hcityT : truthyOpt (getKey data "city") = true)
    (hcityS : isStrOpt (getKey data "city") = true)
    (hbudget : truthyOpt (getKey data "budget") = false) :
    (JValue.num 0).truthy = false ∧
    validate_input data = [("budget", "Invalid budget")] ∧
    ∀ llm tok dn im,
      lambda_handler (some data) llm tok dn im
        = ⟨400, HandlerBody.errors [("budget", "Invalid budget")], false, []⟩ := by
  have hval : validate_input data = [("budget", "Invalid budget")] := by
    simp [validate_input, hcityT, hcityS, hbudget]
  refine ⟨rfl, hval, ?_⟩
  intro llm tok dn im
  simp [lambda_handler, hval]

/-- C10 witness: the concrete body `{"city": "Toronto", "budget": 0}` is
rejected with 400 / "Invalid budget" and the LLM is never called. -/
theorem C10_witness :
    lambda_handler (some dataZeroBudget) (Except.error "e") none dn2Ok im2Ok
      = ⟨400, HandlerBody.errors [("budget", "Invalid budget")], false, []⟩ :=
  (C10_budget_falsy dataZeroBudget rfl rfl rfl).2.2 (Except.error "e") none dn2Ok im2Ok

end NookTrip
